import Mathlib

/-
  Verification of scripts/import_issues_from_csv.py: a bulk importer that
  reads CSV rows, ensures labels and a milestone exist remotely, creates
  one remote issue per row, then links dependencies / parent-child
  relationships in a second pass.

  The script is shallowly embedded: remote interactions are modelled as an
  effect trace plus explicit remote state, and the pure row-processing
  logic is translated function by function from the source.
-/

namespace ImportIssues

/-- Whitespace characters removed by Python's `str.strip()` (ASCII range). -/
def isPySpace (c : Char) : Bool :=
  c = ' ' || c = '\t' || c = '\n' || c = '\r' || c = '\x0b' || c = '\x0c'

/-- Strip `isPySpace` characters from both ends of a character list. -/
def stripChars (l : List Char) : List Char :=
  ((l.dropWhile isPySpace).reverse.dropWhile isPySpace).reverse

/-- Python's `s.strip()`. -/
def pyStrip (s : String) : String :=
  ⟨stripChars s.data⟩

/-- The separator class of `re.split(r"[;,]", ...)` used for Dependencies. -/
def isSepChar (c : Char) : Bool :=
  c = ',' || c = ';'

/-- Split a character list at every separator character, keeping empty
pieces, as `re.split` with a single-character class does. -/
def splitChars (p : Char → Bool) : List Char → List (List Char)
  | [] => [[]]
  | c :: rest =>
      let r := splitChars p rest
      if p c then [] :: r
      else
        match r with
        | [] => [[c]]
        | t :: ts => (c :: t) :: ts

/-- Python's split of a string on a class of separator characters. -/
def pySplit (p : Char → Bool) (s : String) : List String :=
  (splitChars p s.data).map String.mk

/-- Line 143: `[x.strip() for x in re.split(r"[;,]", r.get("Dependencies","")) if x.strip()]`. -/
def parseDeps (s : String) : List String :=
  ((pySplit isSepChar s).map pyStrip).filter (fun t => t ≠ "")

/-- Python's `sep.join(parts)`. -/
def pyJoin (sep : String) : List String → String
  | [] => ""
  | [a] => a
  | a :: b :: rest => a ++ sep ++ pyJoin sep (b :: rest)

/-- One CSV row after `parse_csv`: every recognized field trimmed, absent
fields defaulted to the empty string. -/
structure Row where
  id : String
  title : String
  type : String
  priority : String
  estimate : String
  parentID : String
  description : String
  dependencies : String
  labels : String
deriving Repr, DecidableEq

/-- A row with all fields empty, for building concrete rows tersely. -/
def emptyRow : Row :=
  { id := "", title := "", type := "", priority := "", estimate := ""
    parentID := "", description := "", dependencies := "", labels := "" }

/-- Lines 126-135: compose the issue body from the metadata header lines
(each included only when its value is non-empty, joined by newlines and
followed by a blank line) and the raw description. -/
def composeBody (typ prio est milestone desc : String) : String :=
  let header : List String :=
    (if typ ≠ "" then ["**Type:** " ++ typ] else []) ++
    (if prio ≠ "" then ["**Priority:** " ++ prio] else []) ++
    (if est ≠ "" then ["**Estimate:** " ++ est ++ " pts"] else []) ++
    (if milestone ≠ "" then ["**Milestone:** " ++ milestone] else [])
  (if header ≠ [] then pyJoin "\n" header ++ "\n\n" else "") ++ desc

/-- Lines 137-141: the label list submitted with a created issue. -/
def rowLabels (r : Row) : List String :=
  (if r.type ≠ "" then [r.type] else []) ++
  (if r.priority ≠ "" then [r.priority] else []) ++
  (if r.labels ≠ "" then
    ((pySplit (fun c => c = ',') r.labels).map pyStrip).filter (fun t => t ≠ "") else [])

/-- Line 117-118: `title = r.get("Title") or "(no title)"`. -/
def effectiveTitle (r : Row) : String :=
  if r.title = "" then "(no title)" else r.title

/-! ### Milestone handling (`ensure_milestone`, lines 16-26) -/

/-- A remote milestone as returned by the listing API. -/
structure Milestone where
  title : String
  number : Nat
deriving Repr, DecidableEq

/-- The remote milestone collection: the milestones in listing order
(`state=all`), plus the number the service will assign to the next
created milestone. -/
structure MsState where
  milestones : List Milestone
  nextNumber : Nat
deriving Repr, DecidableEq

/-- The single GET of line 17: one page of at most 100 milestones
(`per_page=100`, no page loop). -/
def listMilestonesOnePage (s : MsState) : List Milestone :=
  s.milestones.take 100

/-- Lines 16-26: look for a milestone with the given title in the one
fetched page; return its number if found, otherwise create a new open
milestone (appended by the service, receiving the next number). Returns
the resulting number together with the remote state after the call. -/
def ensure_milestone (name : String) (s : MsState) : Nat × MsState :=
  match (listMilestonesOnePage s).find? (fun m => m.title = name) with
  | some m => (m.number, s)
  | none =>
      (s.nextNumber,
       { milestones := s.milestones ++ [{ title := name, number := s.nextNumber }]
         nextNumber := s.nextNumber + 1 })

/-! ### Label handling (`ensure_labels`, lines 41-51) -/

/-- Outcome of processing one missing label in `ensure_labels`: either the
POST succeeded and the label was created, or it raised and the exception
was caught and reported as a warning (lines 46-51). -/
inductive LabelEffect where
  | created (name : String)
  | warning (name : String)
deriving Repr, DecidableEq

/-- Whether the remote POST creating a label fails is outside the program;
it is modelled by a function from label name to an `Except` outcome. -/
def attemptCreateLabel (fails : String → Bool) (name : String) : Except String Unit :=
  if fails name then Except.error s!"could not create label {name}" else Except.ok ()

/-- Lines 41-51: compute the missing wanted labels and try to create each
one; a failure is caught and turned into a warning, after which the loop
continues with the remaining labels. `existing` is the name set returned
by `list_labels`. -/
def ensure_labels (existing : List String) (wanted : List String) (fails : String → Bool) :
    List LabelEffect :=
  let to_create := wanted.filter (fun w => w ≠ "" && !(existing.contains w))
  to_create.map (fun name =>
    match attemptCreateLabel fails name with
    | Except.ok _ => LabelEffect.created name
    | Except.error _ => LabelEffect.warning name)

/-! ### The main pipeline (`main`, lines 73-199) -/

/-- A value stored in `id_to_issue`: the real issue number in a normal run
(line 156), or the placeholder string `DRY-<id>` in a dry run (line 153). -/
inductive RemoteId where
  | num (n : Nat)
  | dry (s : String)
deriving Repr, DecidableEq

/-- Python truthiness of an `id_to_issue` value (`if not issue_number:
continue`, lines 167 and 189). -/
def RemoteId.truthy : RemoteId → Bool
  | RemoteId.num n => n ≠ 0
  | RemoteId.dry s => s ≠ ""

/-- How Python string interpolation renders an `id_to_issue` value. -/
def RemoteId.render : RemoteId → String
  | RemoteId.num n => toString n
  | RemoteId.dry s => s

/-- One observable step of the run: the remote HTTP operations and the
progress/warning lines printed locally. -/
inductive Effect where
  | listMilestones
  | createMilestone (title : String)
  | listLabels
  | createLabel (name : String)
  | labelWarning (name : String)
  | createIssue (title body : String) (labels : List String)
      (milestone : Option Nat) (assignees : List String)
  | getIssue (rid : RemoteId)
  | updateIssue (rid : RemoteId) (body : String)
  | dryEnsureMilestone (name : String)
  | dryEnsureLabels (names : List String)
  | dryCreate (title : String) (labels : List String)
  | createdNote (number : Nat) (title : String)
  | drySkipLinking
deriving Repr, DecidableEq

/-- Whether an effect is a remote HTTP call (create/update/list/read), as
opposed to a locally printed line. -/
def Effect.isRemote : Effect → Bool
  | Effect.listMilestones => true
  | Effect.createMilestone _ => true
  | Effect.listLabels => true
  | Effect.createLabel _ => true
  | Effect.createIssue _ _ _ _ _ => true
  | Effect.getIssue _ => true
  | Effect.updateIssue _ _ => true
  | _ => false

/-- The effect trace of one `ensure_milestone` call: the page GET, plus the
creating POST when no listed milestone matches. -/
def ensureMilestoneEffects (name : String) (s : MsState) : List Effect :=
  match (listMilestonesOnePage s).find? (fun m => m.title = name) with
  | some _ => [Effect.listMilestones]
  | none => [Effect.listMilestones, Effect.createMilestone name]

/-- The effect trace of `ensure_labels`: the listing loop, then one POST or
one warning per missing wanted label. -/
def ensureLabelsEffects (existing wanted : List String) (fails : String → Bool) :
    List Effect :=
  Effect.listLabels :: (ensure_labels existing wanted fails).map (fun e =>
    match e with
    | LabelEffect.created n => Effect.createLabel n
    | LabelEffect.warning n => Effect.labelWarning n)

/-- Lines 92-98: the set of label names to ensure, collected from the
Labels, Type and Priority fields of all rows (a Python set; modelled as a
duplicate-free list). -/
def rowWantedLabels (r : Row) : List String :=
  (if r.labels ≠ "" then
    ((pySplit (fun c => c = ',') r.labels).map pyStrip).filter (fun t => t ≠ "") else []) ++
  (if r.type ≠ "" then [r.type] else []) ++
  (if r.priority ≠ "" then [r.priority] else [])

def collectLabels (rows : List Row) : List String :=
  ((rows.map rowWantedLabels).flatten).dedup

/-- `parent_to_children[parent].append(iid)` on a `defaultdict(list)`:
the value of an existing key grows by one element, a fresh key is added at
the end (dict insertion order). -/
def appendChild : List (String × List String) → String → String →
    List (String × List String)
  | [], k, v => [(k, [v])]
  | p :: rest, k, v =>
      if p.1 = k then (p.1, p.2 ++ [v]) :: rest
      else p :: appendChild rest k v

/-- Lookup in the parent-to-children dict, with the defaultdict default. -/
def childrenOf : List (String × List String) → String → List String
  | [], _ => []
  | p :: rest, k => if p.1 = k then p.2 else childrenOf rest k

/-- The body composed for a row (lines 119-135); the milestone header line
uses the `--milestone` argument, not a per-row field. -/
def rowBody (milestoneArg : String) (r : Row) : String :=
  composeBody r.type r.priority r.estimate milestoneArg r.description

/-- Line 155: `[args.assignee] if args.assignee else []`. -/
def assigneeList (assignee : String) : List String :=
  if assignee ≠ "" then [assignee] else []

/-- State threaded through the creation pass (lines 111-157). -/
structure CreateState where
  idMap : String → Option RemoteId
  parentMap : List (String × List String)
  depsMap : String → List String
  createdCount : Nat
  bodies : RemoteId → String
  effects : List Effect

/-- One iteration of the creation loop (lines 116-157) for row `r`:
record the dependency list and the parent-child edge, then either print
the dry-run note and store the placeholder, or create the issue (the
remote assigns number `nums k` to the `k`-th created issue) and store its
number. -/
def createStep (dryRun : Bool) (milestoneArg : String) (milestoneNumber : Option Nat)
    (assignee : String) (nums : Nat → Nat) (st : CreateState) (r : Row) : CreateState :=
  let deps := parseDeps r.dependencies
  let depsMap' := if deps ≠ [] then
    (fun x => if x = r.id then deps else st.depsMap x) else st.depsMap
  let parentMap' := if r.parentID ≠ "" then appendChild st.parentMap r.parentID r.id
    else st.parentMap
  if dryRun then
    { st with
      idMap := fun x => if x = r.id then some (RemoteId.dry ("DRY-" ++ r.id)) else st.idMap x
      parentMap := parentMap'
      depsMap := depsMap'
      effects := st.effects ++ [Effect.dryCreate (effectiveTitle r) (rowLabels r)] }
  else
    let n := nums st.createdCount
    { idMap := fun x => if x = r.id then some (RemoteId.num n) else st.idMap x
      parentMap := parentMap'
      depsMap := depsMap'
      createdCount := st.createdCount + 1
      bodies := fun x => if x = RemoteId.num n then rowBody milestoneArg r else st.bodies x
      effects := st.effects ++
        [Effect.createIssue (effectiveTitle r) (rowBody milestoneArg r) (rowLabels r)
          milestoneNumber (assigneeList assignee),
         Effect.createdNote n (effectiveTitle r)] }

/-- The initial in-memory maps of lines 111-113, over the pre-existing
remote issue bodies. -/
def initCreateState (bodies0 : RemoteId → String) : CreateState :=
  { idMap := fun _ => none, parentMap := [], depsMap := fun _ => []
    createdCount := 0, bodies := bodies0, effects := [] }

def createPass (dryRun : Bool) (milestoneArg : String) (milestoneNumber : Option Nat)
    (assignee : String) (nums : Nat → Nat) (bodies0 : RemoteId → String)
    (rows : List Row) : CreateState :=
  rows.foldl (createStep dryRun milestoneArg milestoneNumber assignee nums)
    (initCreateState bodies0)

/-- Lines 169-174: the Dependencies block appended to a row body. Each
dependency id is looked up in `id_to_issue`; ids absent from the map are
dropped by the `if d in id_to_issue` guard, and the block is added only
when at least one reference survives. -/
def depBlock (idMap : String → Option RemoteId) (deps : List String) : String :=
  if deps ≠ [] then
    let refs := (deps.filterMap idMap).map (fun rid => "#" ++ rid.render)
    if refs ≠ [] then
      "\n\n### Dependencies\n" ++
        pyJoin "\n" (refs.map (fun ref => "- [ ] Blocked by " ++ ref))
    else ""
  else ""

/-- Lines 176-178: the Parent line, added only when the parent id is
non-empty and present in `id_to_issue`. -/
def parentExtra (idMap : String → Option RemoteId) (parent : String) : String :=
  if parent ≠ "" then
    match idMap parent with
    | some rid => "\n\n**Parent:** #" ++ rid.render
    | none => ""
  else ""

/-- Remote bodies plus the effect trace of the linking passes. -/
structure LinkState where
  bodies : RemoteId → String
  effects : List Effect

/-- One iteration of the second pass (lines 164-184): when the row has an
extra block, fetch the current body and write it back with the block
appended. -/
def linkStep (idMap : String → Option RemoteId) (depsMap : String → List String)
    (st : LinkState) (r : Row) : LinkState :=
  match idMap r.id with
  | none => st
  | some rid =>
    if rid.truthy then
      let extra := depBlock idMap (depsMap r.id) ++ parentExtra idMap r.parentID
      if extra ≠ "" then
        { bodies := fun x => if x = rid then st.bodies rid ++ extra else st.bodies x
          effects := st.effects ++
            [Effect.getIssue rid, Effect.updateIssue rid (st.bodies rid ++ extra)] }
      else st
    else st

/-- Line 197: the subtask checklist title for a child id: the Title of the
first loaded row with that ID, falling back to a generic label rendered
from the child's `id_to_issue` entry when no row matches. -/
def childTitle (rows : List Row) (childNum : Option RemoteId) (childId : String) : String :=
  match rows.find? (fun r => r.id = childId) with
  | some r => r.title
  | none => "Issue " ++ (match childNum with
      | some rid => rid.render
      | none => "None")

/-- Line 198: one subtask checklist line. -/
def childLine (rows : List Row) (idMap : String → Option RemoteId) (childId : String) :
    String :=
  let childNum := idMap childId
  let numText := match childNum with
    | some rid => rid.render
    | none => "None"
  "- [ ] #" ++ numText ++ " — " ++ childTitle rows childNum childId

/-- One iteration of the subtask pass (lines 187-199) over a
parent-to-children entry. -/
def subtaskStep (rows : List Row) (idMap : String → Option RemoteId)
    (st : LinkState) (entry : String × List String) : LinkState :=
  match idMap entry.1 with
  | none => st
  | some rid =>
    if rid.truthy then
      let lines := "\n\n### Subtasks" :: entry.2.map (childLine rows idMap)
      let newBody := st.bodies rid ++ pyJoin "\n" lines
      { bodies := fun x => if x = rid then newBody else st.bodies x
        effects := st.effects ++ [Effect.getIssue rid, Effect.updateIssue rid newBody] }
    else st

/-- The observable outcome of `main` after argument and environment
checks: the effect trace and the final in-memory and remote state. -/
structure RunResult where
  effects : List Effect
  idMap : String → Option RemoteId
  parentMap : List (String × List String)
  depsMap : String → List String
  msState : MsState
  bodies : RemoteId → String

/-- Lines 100-105: ensure the milestone unless the run is dry; yields the
phase's effects, the `milestone_number` variable and the milestone state
after the phase. -/
def milestonePhase (dryRun : Bool) (milestoneArg : String) (ms0 : MsState) :
    List Effect × Option Nat × MsState :=
  if milestoneArg ≠ "" then
    if !dryRun then
      let r := ensure_milestone milestoneArg ms0
      (ensureMilestoneEffects milestoneArg ms0, some r.1, r.2)
    else ([Effect.dryEnsureMilestone milestoneArg], none, ms0)
  else ([], none, ms0)

/-- Lines 100-199 of `main`: the milestone phase, the label phase, the
creation pass, and (in a normal run only) the two linking passes. The
remote service is modelled by its milestone state `ms0`, its label name
list `existingLabels`, the label-creation failure oracle `labelFails`, the
issue numbering `nums` (the number given to the `k`-th created issue) and
the pre-existing issue bodies `bodies0`. -/
def mainRun (dryRun : Bool) (milestoneArg assignee : String) (ms0 : MsState)
    (existingLabels : List String) (labelFails : String → Bool)
    (nums : Nat → Nat) (bodies0 : RemoteId → String) (rows : List Row) : RunResult :=
  let msPhase := milestonePhase dryRun milestoneArg ms0
  let wanted := collectLabels rows
  let labelEffects :=
    if !dryRun then ensureLabelsEffects existingLabels wanted labelFails
    else [Effect.dryEnsureLabels wanted]
  let cs := createPass dryRun milestoneArg msPhase.2.1 assignee nums bodies0 rows
  if dryRun then
    { effects := msPhase.1 ++ labelEffects ++ cs.effects ++ [Effect.drySkipLinking]
      idMap := cs.idMap, parentMap := cs.parentMap, depsMap := cs.depsMap
      msState := msPhase.2.2, bodies := cs.bodies }
  else
    let ls1 := rows.foldl (linkStep cs.idMap cs.depsMap)
      { bodies := cs.bodies, effects := [] }
    let ls2 := cs.parentMap.foldl (subtaskStep rows cs.idMap) ls1
    { effects := msPhase.1 ++ labelEffects ++ cs.effects ++ ls2.effects
      idMap := cs.idMap, parentMap := cs.parentMap, depsMap := cs.depsMap
      msState := msPhase.2.2, bodies := ls2.bodies }

/-! ### Helper lemmas -/

lemma dropWhile_isPySpace_idem (l : List Char) :
    (l.dropWhile isPySpace).dropWhile isPySpace = l.dropWhile isPySpace := by
  induction l with
  | nil => rfl
  | cons a as ih =>
      by_cases h : isPySpace a
      · simp [List.dropWhile_cons, h, ih]
      · simp [List.dropWhile_cons, h]

lemma dropWhile_isPySpace_head_false (l : List Char) (a : Char) (as : List Char)
    (h : l.dropWhile isPySpace = a :: as) : isPySpace a = false := by
  induction l with
  | nil => simp at h
  | cons b bs ih =>
      rw [List.dropWhile_cons] at h
      by_cases hb : isPySpace b
      · rw [if_pos hb] at h
        exact ih h
      · rw [if_neg hb] at h
        obtain ⟨h1, _⟩ := List.cons.injEq .. ▸ h
        subst h1
        simpa using hb

lemma stripChars_idem (l : List Char) : stripChars (stripChars l) = stripChars l := by
  unfold stripChars
  have hA : ∀ m : List Char,
      ((m.dropWhile isPySpace).reverse.dropWhile isPySpace).reverse.dropWhile isPySpace =
        ((m.dropWhile isPySpace).reverse.dropWhile isPySpace).reverse := by
    intro m
    cases hc : ((m.dropWhile isPySpace).reverse.dropWhile isPySpace).reverse with
    | nil => simp [hc]
    | cons a as =>
        have hsplit := List.takeWhile_append_dropWhile
          (p := isPySpace) (l := (m.dropWhile isPySpace).reverse)
        have hpre : m.dropWhile isPySpace =
            ((m.dropWhile isPySpace).reverse.dropWhile isPySpace).reverse ++
              ((m.dropWhile isPySpace).reverse.takeWhile isPySpace).reverse := by
          have h2 := congrArg List.reverse hsplit
          rw [List.reverse_append, List.reverse_reverse] at h2
          exact h2.symm
        rw [hc] at hpre
        have hhead := dropWhile_isPySpace_head_false m a
          (as ++ ((m.dropWhile isPySpace).reverse.takeWhile isPySpace).reverse)
          (by simpa using hpre)
        rw [List.dropWhile_cons, hhead]
        simp
  rw [hA l, List.reverse_reverse, dropWhile_isPySpace_idem]

lemma pyStrip_idem (s : String) : pyStrip (pyStrip s) = pyStrip s := by
  unfold pyStrip
  exact congrArg String.mk (stripChars_idem s.data)

/-! ### Claims -/

/-- C3: for every row, the composed body is the metadata header lines
(Type, Priority, Estimate, Milestone, each present only when non-empty)
joined by newlines, followed by a blank line, followed by the raw
description; the Sprint-1 example from the spec evaluates to its exact
expected string, and a row with all metadata fields empty yields the raw
description alone. -/
theorem c3_body_composition :
    (∀ t p e m d : String, t ≠ "" → p ≠ "" → e ≠ "" → m ≠ "" →
      composeBody t p e m d =
        "**Type:** " ++ t ++ "\n" ++ "**Priority:** " ++ p ++ "\n" ++
          "**Estimate:** " ++ e ++ " pts" ++ "\n" ++ "**Milestone:** " ++ m ++
          "\n\n" ++ d) ∧
    (∀ d : String, composeBody "" "" "" "" d = d) ∧
    composeBody "bug" "P1" "3" "Sprint 1" "Fix it" =
      "**Type:** bug\n**Priority:** P1\n**Estimate:** 3 pts\n**Milestone:** Sprint 1\n\nFix it" := by
  refine ⟨?_, ?_, ?_⟩
  · intro t p e m d ht hp he hm
    simp only [composeBody, if_pos ht, if_pos hp, if_pos he, if_pos hm,
      List.cons_append, List.nil_append, List.singleton_append, ne_eq,
      reduceCtorEq, not_false_eq_true, if_pos, pyJoin]
    simp [String.ext_iff, String.data_append]
  · intro d
    simp [composeBody, pyJoin]
  · rfl

/-- Witness for C3 at concrete inputs. -/
theorem c3_body_composition_witness :
    composeBody "a" "b" "c" "d" "e" =
      "**Type:** " ++ "a" ++ "\n" ++ "**Priority:** " ++ "b" ++ "\n" ++
        "**Estimate:** " ++ "c" ++ " pts" ++ "\n" ++ "**Milestone:** " ++ "d" ++
        "\n\n" ++ "e" ∧
    composeBody "" "" "" "" "x" = "x" :=
  ⟨c3_body_composition.1 "a" "b" "c" "d" "e" (by decide) (by decide) (by decide) (by decide),
   c3_body_composition.2.1 "x"⟩

/-- C4: the dependency list of a row is its Dependencies field split on
comma or semicolon, each token trimmed, empty tokens discarded, order
preserved: the empty field parses to the empty list, the mixed example
parses to its three tokens, the result is an order-preserving sublist of
the trimmed split, and every produced token is non-empty and trimmed. -/
theorem c4_dependency_parsing :
    parseDeps "" = [] ∧
    parseDeps "A, B;C" = ["A", "B", "C"] ∧
    (∀ s : String, List.Sublist (parseDeps s) ((pySplit isSepChar s).map pyStrip)) ∧
    (∀ s t : String, t ∈ parseDeps s → t ≠ "" ∧ pyStrip t = t) := by
  refine ⟨by decide, by decide, ?_, ?_⟩
  · intro s
    exact List.filter_sublist _
  · intro s t ht
    rw [parseDeps, List.mem_filter] at ht
    obtain ⟨hmem, hne⟩ := ht
    obtain ⟨x, _, hx⟩ := List.mem_map.mp hmem
    refine ⟨by simpa using hne, ?_⟩
    rw [← hx, pyStrip_idem]

/-- Witness for C4 at a concrete input. -/
theorem c4_dependency_parsing_witness :
    "A" ∈ parseDeps " A ,B" ∧ "A" ≠ "" ∧ pyStrip "A" = "A" :=
  ⟨by decide,
   (c4_dependency_parsing.2.2.2 " A ,B" "A" (by decide)).1,
   (c4_dependency_parsing.2.2.2 " A ,B" "A" (by decide)).2⟩

/-- A remote state that already contains a milestone titled `t`, placed
beyond the single fetched page: 100 other milestones precede it in
listing order. -/
def msBeyondPage : MsState :=
  { milestones := (List.range 100).map (fun i => { title := "x", number := i }) ++
      [{ title := "t", number := 500 }]
    nextNumber := 1000 }

/-- C1 counterexample: against a remote state that already contains a
milestone titled `t` (the unique such milestone has number 500),
`ensure_milestone` does not return 500, creates a new milestone, and two
successive calls return two different numbers — because line 17 fetches
only one page of 100 milestones and never paginates. -/
theorem c1_counterexample :
    (∃ m ∈ msBeyondPage.milestones, m.title = "t") ∧
    (∀ m ∈ msBeyondPage.milestones, m.title = "t" → m.number = 500) ∧
    (ensure_milestone "t" msBeyondPage).1 ≠ 500 ∧
    (ensure_milestone "t" msBeyondPage).2.milestones.length =
      msBeyondPage.milestones.length + 1 ∧
    (ensure_milestone "t" (ensure_milestone "t" msBeyondPage).2).1 ≠
      (ensure_milestone "t" msBeyondPage).1 := by
  decide

/-- C1 amended: whenever a milestone with the requested title appears in
the single fetched page (the first 100 milestones of the `state=all`
listing), `ensure_milestone` is idempotent: it leaves the remote state
unchanged, a second call returns the same number, and the returned number
belongs to an existing milestone with that title. -/
theorem c1_ensure_milestone_idempotent (name : String) (s : MsState)
    (h : ∃ m ∈ listMilestonesOnePage s, m.title = name) :
    (ensure_milestone name s).2 = s ∧
    (ensure_milestone name (ensure_milestone name s).2).1 =
      (ensure_milestone name s).1 ∧
    ∃ m ∈ s.milestones, m.title = name ∧ (ensure_milestone name s).1 = m.number := by
  obtain ⟨m0, hm0, ht0⟩ := h
  have hsome : ((listMilestonesOnePage s).find? (fun m => m.title = name)).isSome := by
    rw [List.find?_isSome]
    exact ⟨m0, hm0, by simp [ht0]⟩
  obtain ⟨m, hm⟩ := Option.isSome_iff_exists.mp hsome
  have hmem : m ∈ listMilestonesOnePage s := List.mem_of_find?_eq_some hm
  have htitle : m.title = name := by
    have := List.find?_some hm
    simpa using this
  refine ⟨by simp [ensure_milestone, hm], by simp [ensure_milestone, hm], ?_⟩
  exact ⟨m, List.take_subset _ _ hmem, htitle, by simp [ensure_milestone, hm]⟩

/-- Witness for the amended C1 at a concrete remote state. -/
theorem c1_ensure_milestone_idempotent_witness :
    (ensure_milestone "t" { milestones := [{ title := "t", number := 7 }], nextNumber := 10 }).2 =
      { milestones := [{ title := "t", number := 7 }], nextNumber := 10 } ∧
    (ensure_milestone "t"
        (ensure_milestone "t"
          { milestones := [{ title := "t", number := 7 }], nextNumber := 10 }).2).1 =
      (ensure_milestone "t" { milestones := [{ title := "t", number := 7 }], nextNumber := 10 }).1 ∧
    ∃ m ∈ ({ milestones := [{ title := "t", number := 7 }], nextNumber := 10 } : MsState).milestones,
      m.title = "t" ∧
        (ensure_milestone "t" { milestones := [{ title := "t", number := 7 }], nextNumber := 10 }).1 =
          m.number :=
  c1_ensure_milestone_idempotent "t" _ ⟨{ title := "t", number := 7 }, by decide, by decide⟩

lemma filterMap_filter_isSome (f : String → Option RemoteId) (l : List String) :
    (l.filter (fun d => (f d).isSome)).filterMap f = l.filterMap f := by
  induction l with
  | nil => rfl
  | cons a t ih =>
      cases h : f a with
      | none => simp [List.filter_cons, List.filterMap_cons, h, ih]
      | some v => simp [List.filter_cons, List.filterMap_cons, h, ih]

lemma depBlock_normal_form (idMap : String → Option RemoteId) (deps : List String) :
    depBlock idMap deps =
      if deps.filterMap idMap = [] then ""
      else "\n\n### Dependencies\n" ++
        pyJoin "\n" (((deps.filterMap idMap).map (fun rid => "#" ++ rid.render)).map
          (fun ref => "- [ ] Blocked by " ++ ref)) := by
  unfold depBlock
  by_cases hd : deps = []
  · subst hd; simp
  · by_cases hfm : deps.filterMap idMap = [] <;> simp [hd, hfm]

/-- C5: dependencies whose local id is absent from `id_to_issue` are
silently dropped from the Dependencies block — the block built from a
dependency list equals the block built from its resolvable entries only —
and when every dependency is unresolved no Dependencies block is produced
at all. -/
theorem c5_unresolved_deps_omitted (idMap : String → Option RemoteId)
    (deps : List String) :
    depBlock idMap deps = depBlock idMap (deps.filter (fun d => (idMap d).isSome)) ∧
    ((∀ d ∈ deps, idMap d = none) → depBlock idMap deps = "") := by
  constructor
  · rw [depBlock_normal_form, depBlock_normal_form, filterMap_filter_isSome]
  · intro hall
    rw [depBlock_normal_form]
    have : deps.filterMap idMap = [] := by
      rw [List.filterMap_eq_nil_iff]
      exact hall
    simp [this]

/-- Witness for C5 at a concrete map and dependency lists. -/
theorem c5_unresolved_deps_omitted_witness :
    (depBlock (fun d => if d = "A" then some (RemoteId.num 3) else none) ["A", "B"] =
      depBlock (fun d => if d = "A" then some (RemoteId.num 3) else none)
        (["A", "B"].filter (fun d =>
          ((fun d => if d = "A" then some (RemoteId.num 3) else none) d).isSome))) ∧
    depBlock (fun d => if d = "A" then some (RemoteId.num 3) else none) ["B", "C"] = "" :=
  ⟨(c5_unresolved_deps_omitted (fun d => if d = "A" then some (RemoteId.num 3) else none)
      ["A", "B"]).1,
   (c5_unresolved_deps_omitted (fun d => if d = "A" then some (RemoteId.num 3) else none)
      ["B", "C"]).2 (by decide)⟩

/-- C7: a failure creating an individual label never aborts the run: every
missing wanted label is processed no matter which creations fail — the
effect list covers the whole missing set, failures surface as warnings and
the remaining labels are still created. -/
theorem c7_label_failure_nonfatal (existing wanted : List String)
    (fails : String → Bool) :
    (ensure_labels existing wanted fails).length =
      (wanted.filter (fun w => w ≠ "" && !(existing.contains w))).length ∧
    (∀ w ∈ wanted, w ≠ "" → existing.contains w = false →
      (fails w = true → LabelEffect.warning w ∈ ensure_labels existing wanted fails) ∧
      (fails w = false → LabelEffect.created w ∈ ensure_labels existing wanted fails)) := by
  constructor
  · simp [ensure_labels]
  · intro w hw hne hcon
    have hmemf : w ∈ wanted.filter (fun w => w ≠ "" && !(existing.contains w)) := by
      rw [List.mem_filter]
      refine ⟨hw, ?_⟩
      rw [Bool.and_eq_true, Bool.not_eq_true', hcon]
      exact ⟨by simpa using hne, rfl⟩
    have hmem2 :
        (match attemptCreateLabel fails w with
          | Except.ok _ => LabelEffect.created w
          | Except.error _ => LabelEffect.warning w) ∈
          ensure_labels existing wanted fails := by
      unfold ensure_labels
      exact List.mem_map_of_mem _ hmemf
    constructor
    · intro hf
      simpa [attemptCreateLabel, hf] using hmem2
    · intro hf
      simpa [attemptCreateLabel, hf] using hmem2

/-- Witness for C7: with label `a` failing, `a` is warned about and `b` is
still created. -/
theorem c7_label_failure_nonfatal_witness :
    LabelEffect.warning "a" ∈ ensure_labels ["x"] ["a", "b", "x"] (fun w => w == "a") ∧
    LabelEffect.created "b" ∈ ensure_labels ["x"] ["a", "b", "x"] (fun w => w == "a") :=
  ⟨((c7_label_failure_nonfatal ["x"] ["a", "b", "x"] (fun w => w == "a")).2 "a"
      (by decide) (by decide) (by decide)).1 (by decide),
   ((c7_label_failure_nonfatal ["x"] ["a", "b", "x"] (fun w => w == "a")).2 "b"
      (by decide) (by decide) (by decide)).2 (by decide)⟩

/-! ### Creation-pass fold lemmas -/

lemma childrenOf_appendChild_same (m : List (String × List String)) (k v : String) :
    childrenOf (appendChild m k v) k = childrenOf m k ++ [v] := by
  induction m with
  | nil => simp [appendChild, childrenOf]
  | cons p rest ih =>
      by_cases h : p.1 = k
      · simp [appendChild, childrenOf, h]
      · simp [appendChild, childrenOf, h, ih]

lemma childrenOf_appendChild_other (m : List (String × List String)) (k v q : String)
    (h : q ≠ k) : childrenOf (appendChild m k v) q = childrenOf m q := by
  have hk : ¬k = q := fun hkq => h hkq.symm
  induction m with
  | nil => simp [appendChild, childrenOf, hk]
  | cons p rest ih =>
      by_cases hp : p.1 = k
      · simp [appendChild, childrenOf, hp, hk]
      · simp only [appendChild, childrenOf, if_neg hp, ih]

lemma createStep_parentMap (d : Bool) (ma : String) (mn : Option Nat) (a : String)
    (nums : Nat → Nat) (st : CreateState) (r : Row) :
    (createStep d ma mn a nums st r).parentMap =
      if r.parentID ≠ "" then appendChild st.parentMap r.parentID r.id
      else st.parentMap := by
  cases d <;> simp [createStep]

lemma createPass_children (d : Bool) (ma : String) (mn : Option Nat) (a : String)
    (nums : Nat → Nat) (p : String) (hp : p ≠ "") :
    ∀ (rows : List Row) (st : CreateState),
      childrenOf ((rows.foldl (createStep d ma mn a nums) st).parentMap) p =
        childrenOf st.parentMap p ++
          (rows.filter (fun r => r.parentID = p)).map Row.id := by
  intro rows
  induction rows with
  | nil => intro st; simp
  | cons r rs ih =>
      intro st
      rw [List.foldl_cons, ih, List.filter_cons]
      by_cases hr : r.parentID = p
      · have hne : r.parentID ≠ "" := by rw [hr]; exact hp
        rw [createStep_parentMap, if_pos hne, hr, childrenOf_appendChild_same]
        simp [hr, List.append_assoc]
      · have hchild : childrenOf ((createStep d ma mn a nums st r).parentMap) p =
            childrenOf st.parentMap p := by
          rw [createStep_parentMap]
          by_cases hne : r.parentID ≠ ""
          · rw [if_pos hne]
            exact childrenOf_appendChild_other _ _ _ _ (fun hpr => hr hpr.symm)
          · rw [if_neg hne]
        rw [hchild]
        simp [hr]

lemma createPass_children_empty_key (d : Bool) (ma : String) (mn : Option Nat)
    (a : String) (nums : Nat → Nat) :
    ∀ (rows : List Row) (st : CreateState),
      childrenOf ((rows.foldl (createStep d ma mn a nums) st).parentMap) "" =
        childrenOf st.parentMap "" := by
  intro rows
  induction rows with
  | nil => intro st; simp
  | cons r rs ih =>
      intro st
      rw [List.foldl_cons, ih, createStep_parentMap]
      by_cases hne : r.parentID ≠ ""
      · rw [if_pos hne]
        exact childrenOf_appendChild_other _ _ _ _ (fun h => hne h.symm)
      · rw [if_neg hne]

lemma mainRun_parentMap (d : Bool) (ma a : String) (ms0 : MsState)
    (ex : List String) (lf : String → Bool) (nums : Nat → Nat)
    (b0 : RemoteId → String) (rows : List Row) :
    (mainRun d ma a ms0 ex lf nums b0 rows).parentMap =
      (createPass d ma (milestonePhase d ma ms0).2.1 a nums b0 rows).parentMap := by
  cases d <;> simp [mainRun]

/-- C6: for every non-empty parent local id, the Parent-to-Children map
entry built by the run lists exactly the local ids of the rows declaring
that ParentID, in file order. -/
theorem c6_children_in_file_order (d : Bool) (ma a : String) (ms0 : MsState)
    (ex : List String) (lf : String → Bool) (nums : Nat → Nat)
    (b0 : RemoteId → String) (rows : List Row) (p : String) (hp : p ≠ "") :
    childrenOf (mainRun d ma a ms0 ex lf nums b0 rows).parentMap p =
      (rows.filter (fun r => r.parentID = p)).map Row.id := by
  rw [mainRun_parentMap, createPass, createPass_children d ma _ a nums p hp rows]
  simp [initCreateState, childrenOf]

/-- Witness for C6 on a concrete row set: rows `a` and `c` declare parent
`P`, row `b` does not; the entry for `P` is exactly `[a, c]`. -/
theorem c6_children_in_file_order_witness :
    childrenOf
      (mainRun true "M" "" { milestones := [], nextNumber := 1 } []
        (fun _ => false) (fun k => k + 1) (fun _ => "")
        [{ emptyRow with id := "a", parentID := "P" },
         { emptyRow with id := "b" },
         { emptyRow with id := "c", parentID := "P" }]).parentMap "P" =
      (([{ emptyRow with id := "a", parentID := "P" },
         { emptyRow with id := "b" },
         { emptyRow with id := "c", parentID := "P" }] : List Row).filter
        (fun r => r.parentID = "P")).map Row.id :=
  c6_children_in_file_order true "M" "" { milestones := [], nextNumber := 1 } []
    (fun _ => false) (fun k => k + 1) (fun _ => "") _ "P" (by decide)

/-- C10: every child id stored in the Parent-to-Children map is the ID of
some loaded row, so the subtask checklist title lookup of line 197 finds a
row and never falls back to the generic `Issue <remote id>` label:
`childTitle` returns the found row's Title whatever the child's
`id_to_issue` entry is. -/
theorem c10_subtask_lookup_never_falls_back (d : Bool) (ma a : String)
    (ms0 : MsState) (ex : List String) (lf : String → Bool) (nums : Nat → Nat)
    (b0 : RemoteId → String) (rows : List Row) (p c : String)
    (h : c ∈ childrenOf (mainRun d ma a ms0 ex lf nums b0 rows).parentMap p) :
    ∃ r, rows.find? (fun row => row.id = c) = some r ∧
      ∀ childNum : Option RemoteId, childTitle rows childNum c = r.title := by
  have hrow : ∃ r ∈ rows, r.id = c := by
    by_cases hp : p = ""
    · rw [mainRun_parentMap, createPass] at h
      rw [hp, createPass_children_empty_key] at h
      simp [initCreateState, childrenOf] at h
    · rw [c6_children_in_file_order d ma a ms0 ex lf nums b0 rows p hp] at h
      obtain ⟨r, hmem, hid⟩ := List.mem_map.mp h
      exact ⟨r, List.mem_of_mem_filter hmem, hid⟩
  have hsome : (rows.find? (fun row => row.id = c)).isSome := by
    rw [List.find?_isSome]
    obtain ⟨r, hmem, hid⟩ := hrow
    exact ⟨r, hmem, by simp [hid]⟩
  obtain ⟨r, hr⟩ := Option.isSome_iff_exists.mp hsome
  refine ⟨r, hr, ?_⟩
  intro childNum
  unfold childTitle
  rw [hr]

/-- Witness for C10 at a concrete run with one parent-child pair. -/
theorem c10_subtask_lookup_never_falls_back_witness :
    ∃ r, ([{ emptyRow with id := "P", title := "parent" },
           { emptyRow with id := "a", title := "child", parentID := "P" }] : List Row).find?
        (fun row => row.id = "a") = some r ∧
      ∀ childNum : Option RemoteId,
        childTitle
          [{ emptyRow with id := "P", title := "parent" },
           { emptyRow with id := "a", title := "child", parentID := "P" }]
          childNum "a" = r.title :=
  c10_subtask_lookup_never_falls_back true "M" "" { milestones := [], nextNumber := 1 }
    [] (fun _ => false) (fun k => k + 1) (fun _ => "")
    [{ emptyRow with id := "P", title := "parent" },
     { emptyRow with id := "a", title := "child", parentID := "P" }]
    "P" "a" (by decide)

lemma createStep_false_createdCount (ma : String) (mn : Option Nat) (a : String)
    (nums : Nat → Nat) (st : CreateState) (r : Row) :
    (createStep false ma mn a nums st r).createdCount = st.createdCount + 1 := by
  simp [createStep]

lemma createStep_false_idMap (ma : String) (mn : Option Nat) (a : String)
    (nums : Nat → Nat) (st : CreateState) (r : Row) (x : String) :
    (createStep false ma mn a nums st r).idMap x =
      if x = r.id then some (RemoteId.num (nums st.createdCount)) else st.idMap x := by
  simp [createStep]

lemma createPass_idMap_last (ma : String) (mn : Option Nat) (a : String)
    (nums : Nat → Nat) :
    ∀ (rows : List Row) (st : CreateState) (x : String),
      (rows.foldl (createStep false ma mn a nums) st).idMap x =
        (((List.enumFrom st.createdCount rows).filter
            (fun q => q.2.id = x)).getLast?).elim
          (st.idMap x) (fun q => some (RemoteId.num (nums q.1))) := by
  intro rows
  induction rows with
  | nil => intro st x; simp
  | cons r rs ih =>
      intro st x
      rw [List.foldl_cons, ih, createStep_false_createdCount,
        List.enumFrom_cons, List.filter_cons]
      by_cases hr : x = r.id
      · have hr2 : r.id = x := hr.symm
        rw [if_pos (by simp [hr2])]
        cases hF : (List.enumFrom (st.createdCount + 1) rs).filter
            (fun q => q.2.id = x) with
        | nil =>
            simp [createStep_false_idMap, hr]
        | cons f fs =>
            rw [List.getLast?_cons_cons]
            obtain ⟨y, hy⟩ := Option.isSome_iff_exists.mp
              (List.getLast?_isSome.mpr (List.cons_ne_nil f fs))
            rw [hy]
            rfl
      · have hr2 : ¬r.id = x := fun hh => hr hh.symm
        rw [if_neg (by simp [hr2])]
        cases hF : (List.enumFrom (st.createdCount + 1) rs).filter
            (fun q => q.2.id = x) with
        | nil => simp [createStep_false_idMap, hr]
        | cons f fs =>
            obtain ⟨y, hy⟩ := Option.isSome_iff_exists.mp
              (List.getLast?_isSome.mpr (List.cons_ne_nil f fs))
            rw [hy]
            rfl

/-- C9: in a normal run, the Local-to-Remote Map entry for a local id is
the remote number assigned to the **last** row in file order carrying that
id (each creation overwrites the previous mapping), and is absent when no
row carries the id; since both linking passes read this same map, every
dependency, parent and subtask link naming the id resolves to the
last-created item's remote number. -/
theorem c9_duplicate_ids_last_wins (ma a : String) (ms0 : MsState)
    (ex : List String) (lf : String → Bool) (nums : Nat → Nat)
    (b0 : RemoteId → String) (rows : List Row) (x : String) :
    (mainRun false ma a ms0 ex lf nums b0 rows).idMap x =
      (((rows.enum).filter (fun q => q.2.id = x)).getLast?).map
        (fun q => RemoteId.num (nums q.1)) := by
  have hm : (mainRun false ma a ms0 ex lf nums b0 rows).idMap =
      (createPass false ma (milestonePhase false ma ms0).2.1 a nums b0 rows).idMap := by
    simp [mainRun]
  rw [hm, createPass, createPass_idMap_last]
  have h0 : (initCreateState b0).createdCount = 0 := rfl
  have h1 : (initCreateState b0).idMap x = none := rfl
  have he : rows.enum = List.enumFrom 0 rows := rfl
  rw [h0, h1, he]
  cases hL : ((List.enumFrom 0 rows).filter (fun q => q.2.id = x)).getLast? <;>
    simp

lemma createStep_effects (d : Bool) (ma : String) (mn : Option Nat) (a : String)
    (nums : Nat → Nat) (st : CreateState) (r : Row) :
    (createStep d ma mn a nums st r).effects =
      st.effects ++
        (if d then [Effect.dryCreate (effectiveTitle r) (rowLabels r)]
         else [Effect.createIssue (effectiveTitle r) (rowBody ma r) (rowLabels r)
                 mn (assigneeList a),
               Effect.createdNote (nums st.createdCount) (effectiveTitle r)]) := by
  cases d <;> simp [createStep]

lemma createPass_effects_mono (d : Bool) (ma : String) (mn : Option Nat) (a : String)
    (nums : Nat → Nat) :
    ∀ (rows : List Row) (st : CreateState), ∃ t,
      (rows.foldl (createStep d ma mn a nums) st).effects = st.effects ++ t := by
  intro rows
  induction rows with
  | nil => intro st; exact ⟨[], by simp⟩
  | cons r rs ih =>
      intro st
      obtain ⟨t1, ht1⟩ := ih (createStep d ma mn a nums st r)
      refine ⟨(if d then [Effect.dryCreate (effectiveTitle r) (rowLabels r)]
         else [Effect.createIssue (effectiveTitle r) (rowBody ma r) (rowLabels r)
                 mn (assigneeList a),
               Effect.createdNote (nums st.createdCount) (effectiveTitle r)]) ++ t1, ?_⟩
      rw [List.foldl_cons, ht1, createStep_effects, List.append_assoc]

lemma createPass_mem_dryCreate (ma : String) (mn : Option Nat) (a : String)
    (nums : Nat → Nat) :
    ∀ (rows : List Row) (st : CreateState) (r : Row), r ∈ rows →
      Effect.dryCreate (effectiveTitle r) (rowLabels r) ∈
        (rows.foldl (createStep true ma mn a nums) st).effects := by
  intro rows
  induction rows with
  | nil => intro st r hr; simp at hr
  | cons r0 rs ih =>
      intro st r hr
      rcases List.mem_cons.mp hr with heq | hmem
      · subst heq
        rw [List.foldl_cons]
        obtain ⟨t, ht⟩ := createPass_effects_mono true ma mn a nums rs
          (createStep true ma mn a nums st r)
        rw [ht, createStep_effects]
        simp
      · exact ih _ r hmem

lemma createPass_mem_createIssue (ma : String) (mn : Option Nat) (a : String)
    (nums : Nat → Nat) :
    ∀ (rows : List Row) (st : CreateState) (r : Row), r ∈ rows →
      Effect.createIssue (effectiveTitle r) (rowBody ma r) (rowLabels r) mn
          (assigneeList a) ∈
        (rows.foldl (createStep false ma mn a nums) st).effects := by
  intro rows
  induction rows with
  | nil => intro st r hr; simp at hr
  | cons r0 rs ih =>
      intro st r hr
      rcases List.mem_cons.mp hr with heq | hmem
      · subst heq
        rw [List.foldl_cons]
        obtain ⟨t, ht⟩ := createPass_effects_mono false ma mn a nums rs
          (createStep false ma mn a nums st r)
        rw [ht, createStep_effects]
        simp
      · exact ih _ r hmem

lemma createPass_dry_effects_nonremote (ma : String) (mn : Option Nat) (a : String)
    (nums : Nat → Nat) :
    ∀ (rows : List Row) (st : CreateState),
      (∀ e ∈ st.effects, e.isRemote = false) →
      ∀ e ∈ (rows.foldl (createStep true ma mn a nums) st).effects,
        e.isRemote = false := by
  intro rows
  induction rows with
  | nil => intro st h e he; exact h e he
  | cons r rs ih =>
      intro st h e he
      refine ih _ ?_ e he
      intro e2 he2
      rw [createStep_effects] at he2
      rcases List.mem_append.mp he2 with h2 | h2
      · exact h e2 h2
      · simp at h2
        subst h2
        rfl

lemma createPass_dry_idMap (ma : String) (mn : Option Nat) (a : String)
    (nums : Nat → Nat) :
    ∀ (rows : List Row) (st : CreateState) (x : String),
      (rows.foldl (createStep true ma mn a nums) st).idMap x =
        if rows.any (fun r => r.id = x) then some (RemoteId.dry ("DRY-" ++ x))
        else st.idMap x := by
  intro rows
  induction rows with
  | nil => intro st x; simp
  | cons r rs ih =>
      intro st x
      rw [List.foldl_cons, ih, List.any_cons]
      by_cases hrs : rs.any (fun r => r.id = x)
      · simp [hrs]
      · by_cases hr : r.id = x
        · subst hr
          simp [hrs, createStep]
        · have hr2 : ¬x = r.id := fun hh => hr hh.symm
          simp [hrs, hr, createStep, hr2]

lemma createPass_dry_bodies (ma : String) (mn : Option Nat) (a : String)
    (nums : Nat → Nat) :
    ∀ (rows : List Row) (st : CreateState),
      (rows.foldl (createStep true ma mn a nums) st).bodies = st.bodies := by
  intro rows
  induction rows with
  | nil => intro st; rfl
  | cons r rs ih =>
      intro st
      rw [List.foldl_cons, ih]
      simp [createStep]

lemma milestonePhase_dry (ma : String) (ms0 : MsState) :
    milestonePhase true ma ms0 =
      ((if ma ≠ "" then [Effect.dryEnsureMilestone ma] else []), none, ms0) := by
  by_cases h : ma ≠ "" <;> simp [milestonePhase, h]

lemma string_append_left_cancel {a b c : String} (h : a ++ b = a ++ c) : b = c := by
  have h2 := congrArg String.data h
  simp [String.data_append] at h2
  exact String.ext h2

lemma mainRun_dry_effects (ma a : String) (ms0 : MsState) (ex : List String)
    (lf : String → Bool) (nums : Nat → Nat) (b0 : RemoteId → String)
    (rows : List Row) :
    (mainRun true ma a ms0 ex lf nums b0 rows).effects =
      (milestonePhase true ma ms0).1 ++
        [Effect.dryEnsureLabels (collectLabels rows)] ++
        (createPass true ma (milestonePhase true ma ms0).2.1 a nums b0 rows).effects ++
        [Effect.drySkipLinking] := by
  simp [mainRun]

/-- C2 amended: a dry run issues no remote call of any kind — every effect
in its trace is a local print —, maps every row's local id to the
placeholder `DRY-<local id>`, placeholders of rows with distinct local ids
are distinct, and the run skips linking and leaves the remote issue bodies
and milestone state untouched. (Rows sharing a local id share one
placeholder entry; see the counterexample.) -/
theorem c2_dry_run_no_remote_calls (ma a : String) (ms0 : MsState)
    (ex : List String) (lf : String → Bool) (nums : Nat → Nat)
    (b0 : RemoteId → String) (rows : List Row) :
    (∀ e ∈ (mainRun true ma a ms0 ex lf nums b0 rows).effects,
       e.isRemote = false) ∧
    (∀ r ∈ rows, (mainRun true ma a ms0 ex lf nums b0 rows).idMap r.id =
       some (RemoteId.dry ("DRY-" ++ r.id))) ∧
    (∀ r1 ∈ rows, ∀ r2 ∈ rows, r1.id ≠ r2.id →
       (mainRun true ma a ms0 ex lf nums b0 rows).idMap r1.id ≠
         (mainRun true ma a ms0 ex lf nums b0 rows).idMap r2.id) ∧
    (mainRun true ma a ms0 ex lf nums b0 rows).bodies = b0 ∧
    (mainRun true ma a ms0 ex lf nums b0 rows).msState = ms0 := by
  have hidEq : (mainRun true ma a ms0 ex lf nums b0 rows).idMap =
      (createPass true ma (milestonePhase true ma ms0).2.1 a nums b0 rows).idMap := by
    simp [mainRun]
  have hidMap : ∀ r ∈ rows, (mainRun true ma a ms0 ex lf nums b0 rows).idMap r.id =
      some (RemoteId.dry ("DRY-" ++ r.id)) := by
    intro r hr
    rw [hidEq, createPass, createPass_dry_idMap]
    have hany : rows.any (fun r2 => r2.id = r.id) = true :=
      List.any_eq_true.mpr ⟨r, hr, by simp⟩
    rw [if_pos hany]
  refine ⟨?_, hidMap, ?_, ?_, ?_⟩
  · intro e he
    rw [mainRun_dry_effects] at he
    rcases List.mem_append.mp he with he1 | he1
    · rcases List.mem_append.mp he1 with he2 | he2
      · rcases List.mem_append.mp he2 with he3 | he3
        · rw [milestonePhase_dry] at he3
          by_cases hma : ma ≠ ""
          · rw [if_pos hma] at he3
            simp at he3
            subst he3
            rfl
          · rw [if_neg hma] at he3
            simp at he3
        · simp at he3
          subst he3
          rfl
      · refine createPass_dry_effects_nonremote ma (milestonePhase true ma ms0).2.1
          a nums rows (initCreateState b0) ?_ e ?_
        · intro e2 he2
          simp [initCreateState] at he2
        · rw [createPass] at he2
          exact he2
    · simp at he1
      subst he1
      rfl
  · intro r1 h1 r2 h2 hne heq
    rw [hidMap r1 h1, hidMap r2 h2] at heq
    have hstr : "DRY-" ++ r1.id = "DRY-" ++ r2.id := by
      have := Option.some.injEq .. ▸ heq
      simpa [RemoteId.dry.injEq] using heq
    exact hne (string_append_left_cancel hstr)
  · have hb : (mainRun true ma a ms0 ex lf nums b0 rows).bodies =
        (createPass true ma (milestonePhase true ma ms0).2.1 a nums b0 rows).bodies := by
      simp [mainRun]
    rw [hb, createPass, createPass_dry_bodies]
    rfl
  · have hms : (mainRun true ma a ms0 ex lf nums b0 rows).msState =
        (milestonePhase true ma ms0).2.2 := by
      simp [mainRun]
    rw [hms, milestonePhase_dry]

/-- Witness for the amended C2 at a concrete dry run over two rows. -/
theorem c2_dry_run_no_remote_calls_witness :
    (mainRun true "M" "" { milestones := [], nextNumber := 1 } [] (fun _ => false)
      (fun k => k + 1) (fun _ => "")
      [{ emptyRow with id := "A" }, { emptyRow with id := "B" }]).idMap
        ({ emptyRow with id := "A" } : Row).id =
      some (RemoteId.dry ("DRY-" ++ ({ emptyRow with id := "A" } : Row).id)) ∧
    (mainRun true "M" "" { milestones := [], nextNumber := 1 } [] (fun _ => false)
      (fun k => k + 1) (fun _ => "")
      [{ emptyRow with id := "A" }, { emptyRow with id := "B" }]).idMap
        ({ emptyRow with id := "A" } : Row).id ≠
      (mainRun true "M" "" { milestones := [], nextNumber := 1 } [] (fun _ => false)
        (fun k => k + 1) (fun _ => "")
        [{ emptyRow with id := "A" }, { emptyRow with id := "B" }]).idMap
          ({ emptyRow with id := "B" } : Row).id :=
  ⟨(c2_dry_run_no_remote_calls "M" "" { milestones := [], nextNumber := 1 } []
      (fun _ => false) (fun k => k + 1) (fun _ => "")
      [{ emptyRow with id := "A" }, { emptyRow with id := "B" }]).2.1
      { emptyRow with id := "A" } (by decide),
   (c2_dry_run_no_remote_calls "M" "" { milestones := [], nextNumber := 1 } []
      (fun _ => false) (fun k => k + 1) (fun _ => "")
      [{ emptyRow with id := "A" }, { emptyRow with id := "B" }]).2.2.1
      { emptyRow with id := "A" } (by decide) { emptyRow with id := "B" } (by decide)
      (by decide)⟩

/-- Two distinct rows sharing the local id `A`. -/
def dupRowA : Row := { emptyRow with id := "A", title := "first" }

def dupRowB : Row := { emptyRow with id := "A", title := "second" }

/-- C2 counterexample: the placeholder mapping is **not** distinct per row
when two rows share a local id — both rows of this concrete dry run are
assigned the single entry `DRY-A`. -/
theorem c2_counterexample :
    dupRowA ≠ dupRowB ∧
    dupRowA ∈ [dupRowA, dupRowB] ∧ dupRowB ∈ [dupRowA, dupRowB] ∧
    (mainRun true "M" "" { milestones := [], nextNumber := 1 } [] (fun _ => false)
      (fun k => k + 1) (fun _ => "") [dupRowA, dupRowB]).idMap dupRowA.id =
      (mainRun true "M" "" { milestones := [], nextNumber := 1 } [] (fun _ => false)
        (fun k => k + 1) (fun _ => "") [dupRowA, dupRowB]).idMap dupRowB.id ∧
    (mainRun true "M" "" { milestones := [], nextNumber := 1 } [] (fun _ => false)
      (fun k => k + 1) (fun _ => "") [dupRowA, dupRowB]).idMap dupRowB.id =
      some (RemoteId.dry "DRY-A") := by
  refine ⟨by decide, by decide, by decide, by decide, by decide⟩

lemma mainRun_mem_effects (d : Bool) (ma a : String) (ms0 : MsState)
    (ex : List String) (lf : String → Bool) (nums : Nat → Nat)
    (b0 : RemoteId → String) (rows : List Row) (e : Effect)
    (he : e ∈ (createPass d ma (milestonePhase d ma ms0).2.1 a nums b0 rows).effects) :
    e ∈ (mainRun d ma a ms0 ex lf nums b0 rows).effects := by
  cases d <;> simp [mainRun] <;> tauto

/-- C8: a row whose Title field is empty is created — or reported in dry
run — under the literal title `(no title)` rather than an empty title. -/
theorem c8_empty_title_fallback (ma a : String) (ms0 : MsState)
    (ex : List String) (lf : String → Bool) (nums : Nat → Nat)
    (b0 : RemoteId → String) (rows : List Row) (r : Row)
    (hr : r ∈ rows) (ht : r.title = "") :
    Effect.dryCreate "(no title)" (rowLabels r) ∈
      (mainRun true ma a ms0 ex lf nums b0 rows).effects ∧
    Effect.createIssue "(no title)" (rowBody ma r) (rowLabels r)
        (milestonePhase false ma ms0).2.1 (assigneeList a) ∈
      (mainRun false ma a ms0 ex lf nums b0 rows).effects := by
  have htitle : effectiveTitle r = "(no title)" := by simp [effectiveTitle, ht]
  constructor
  · refine mainRun_mem_effects true ma a ms0 ex lf nums b0 rows _ ?_
    rw [createPass]
    have h1 := createPass_mem_dryCreate ma (milestonePhase true ma ms0).2.1 a nums
      rows (initCreateState b0) r hr
    rw [htitle] at h1
    exact h1
  · refine mainRun_mem_effects false ma a ms0 ex lf nums b0 rows _ ?_
    rw [createPass]
    have h1 := createPass_mem_createIssue ma (milestonePhase false ma ms0).2.1 a nums
      rows (initCreateState b0) r hr
    rw [htitle] at h1
    exact h1

/-- Witness for C8 at a concrete run over a single row with an empty
Title. -/
theorem c8_empty_title_fallback_witness :
    Effect.dryCreate "(no title)" (rowLabels { emptyRow with id := "A" }) ∈
      (mainRun true "M" "" { milestones := [], nextNumber := 1 } [] (fun _ => false)
        (fun k => k + 1) (fun _ => "") [{ emptyRow with id := "A" }]).effects ∧
    Effect.createIssue "(no title)" (rowBody "M" { emptyRow with id := "A" })
        (rowLabels { emptyRow with id := "A" })
        (milestonePhase false "M" { milestones := [], nextNumber := 1 }).2.1
        (assigneeList "") ∈
      (mainRun false "M" "" { milestones := [], nextNumber := 1 } [] (fun _ => false)
        (fun k => k + 1) (fun _ => "") [{ emptyRow with id := "A" }]).effects :=
  c8_empty_title_fallback "M" "" { milestones := [], nextNumber := 1 } []
    (fun _ => false) (fun k => k + 1) (fun _ => "") [{ emptyRow with id := "A" }]
    { emptyRow with id := "A" } (by decide) (by decide)

end ImportIssues
